import Mathlib

/-!
Verification of the Sleeper Bus Ticket Booking System registry
(a shallow embedding of src/main.py).

The registry state is the global list of active bookings.  The HTTP
handlers are embedded as state-passing functions returning either a
response or an HTTPException together with the resulting state.
-/

namespace SleeperBus

/-- Embedding of Python str.strip(): remove whitespace from both ends. -/
def str_strip (s : String) : String :=
  String.mk (((s.data.dropWhile Char.isWhitespace).reverse.dropWhile Char.isWhitespace).reverse)

/-- Embedding of the Python f-string {n:02d} for the non-negative values used here. -/
def two_digit (n : Nat) : String :=
  if n < 10 then "0" ++ Nat.repr n else Nat.repr n

def TOTAL_SEATS : Nat := 30

def STATIONS : List String :=
  [ "Ahmedabad (Paldi)",
    "Nadiad",
    "Anand",
    "Vadodara",
    "Bharuch",
    "Surat",
    "Navsari",
    "Valsad",
    "Vapi",
    "Mumbai (Dadar)" ]

def DEFAULT_PICKUP_STATION : String := STATIONS.get ⟨0, by decide⟩

def DEFAULT_DROP_STATION : String := STATIONS.get ⟨9, by decide⟩

structure HTTPException where
  status_code : Nat
  detail : String
deriving DecidableEq, Repr

instance {ε α : Type} [DecidableEq ε] [DecidableEq α] : DecidableEq (Except ε α) := fun a b =>
  match a, b with
  | .error e, .error f =>
    if h : e = f then isTrue (by rw [h]) else isFalse (by intro hc; cases hc; exact h rfl)
  | .ok x, .ok y =>
    if h : x = y then isTrue (by rw [h]) else isFalse (by intro hc; cases hc; exact h rfl)
  | .error _, .ok _ => isFalse (by intro hc; cases hc)
  | .ok _, .error _ => isFalse (by intro hc; cases hc)

structure Station where
  sequence : Nat
  name : String
deriving DecidableEq, Repr

structure Seat where
  seat_id : Nat
  seat_label : String
  seat_type : String := "sleeper"
  is_booked : Bool
deriving DecidableEq, Repr

structure Booking where
  seat_id : Nat
  passenger_name : String
  pickup_station : String := DEFAULT_PICKUP_STATION
  drop_station : String := DEFAULT_DROP_STATION
  meal_preference : Option String := none
deriving DecidableEq, Repr

structure BookRequest where
  seat_id : Nat
  passenger_name : String
  pickup_station : String := DEFAULT_PICKUP_STATION
  drop_station : String := DEFAULT_DROP_STATION
  meal_preference : Option String := none
deriving DecidableEq, Repr

structure MealRequest where
  seat_id : Nat
  meal_preference : String
deriving DecidableEq, Repr

def _normalize_station_name (station_name : String) : String :=
  str_strip station_name

/-- Embedding of _validate_route_stations: the three checks in source order,
each failure a 400 HTTPException. -/
def _validate_route_stations (pickup_station drop_station : String) :
    Except HTTPException (String × String) :=
  let normalized_pickup := _normalize_station_name pickup_station
  let normalized_drop := _normalize_station_name drop_station
  if normalized_pickup ∈ STATIONS then
    if normalized_drop ∈ STATIONS then
      if STATIONS.indexOf normalized_pickup ≥ STATIONS.indexOf normalized_drop then
        .error ⟨400, "pickup_station must be before drop_station"⟩
      else
        .ok (normalized_pickup, normalized_drop)
    else .error ⟨400, "Invalid drop_station"⟩
  else .error ⟨400, "Invalid pickup_station"⟩

def _seat_label (seat_id : Nat) : String :=
  let deck := if seat_id ≤ 15 then "U" else "L"
  let position := if seat_id ≤ 15 then seat_id else seat_id - 15
  deck ++ two_digit position

def _find_booking_index (seat_id : Nat) : List Booking → Option Nat
  | [] => none
  | booking :: rest =>
    if booking.seat_id = seat_id then some 0
    else (_find_booking_index seat_id rest).map (· + 1)

def _is_seat_booked (seat_id : Nat) (bookings : List Booking) : Bool :=
  (_find_booking_index seat_id bookings).isSome

def _seed_rows : List (Nat × String × String) :=
  [ (2, "Riya Shah", "Vegetarian"),
    (7, "Aarav Mehta", "Jain"),
    (16, "Neha Patel", "Vegetarian"),
    (23, "Kabir Desai", "Non-Vegetarian"),
    (29, "Ishita Joshi", "Vegetarian") ]

/-- The registry state right after _seed_initial_bookings ran on the empty list. -/
def initialBookings : List Booking :=
  _seed_rows.map (fun row =>
    { seat_id := row.1,
      passenger_name := row.2.1,
      pickup_station := DEFAULT_PICKUP_STATION,
      drop_station := DEFAULT_DROP_STATION,
      meal_preference := some row.2.2 })

def list_seats (bookings : List Booking) : List Seat :=
  (List.range TOTAL_SEATS).map (fun k =>
    { seat_id := k + 1,
      seat_label := _seat_label (k + 1),
      is_booked := _is_seat_booked (k + 1) bookings })

def list_stations : List Station :=
  STATIONS.enum.map (fun pair => { sequence := pair.1 + 1, name := pair.2 })

/-- Field constraints of the pydantic Booking model: passenger_name 2..80 chars,
station names at most 60 chars, meal_preference at most 60 chars when present. -/
abbrev BookingFieldsOK (passenger_name pickup_station drop_station : String)
    (meal_preference : Option String) : Prop :=
  2 ≤ passenger_name.length ∧ passenger_name.length ≤ 80 ∧
    pickup_station.length ≤ 60 ∧ drop_station.length ≤ 60 ∧
    Option.all (fun m => decide (m.length ≤ 60)) meal_preference = true

/-- Embedding of the pydantic Booking constructor: field constraints are checked
on construction, and a violation raises ValidationError, which the framework
surfaces as a 500 response with nothing stored. -/
def pydantic_Booking (seat_id : Nat) (passenger_name pickup_station drop_station : String)
    (meal_preference : Option String) : Except HTTPException Booking :=
  if BookingFieldsOK passenger_name pickup_station drop_station meal_preference then
    .ok { seat_id, passenger_name, pickup_station, drop_station, meal_preference }
  else
    .error ⟨500, "Internal Server Error"⟩

def book_seat (request : BookRequest) (bookings : List Booking) :
    Except HTTPException Booking × List Booking :=
  if _is_seat_booked request.seat_id bookings then
    (.error ⟨409, "Seat is already booked"⟩, bookings)
  else
    match _validate_route_stations request.pickup_station request.drop_station with
    | .error e => (.error e, bookings)
    | .ok (pickup_station, drop_station) =>
      match pydantic_Booking request.seat_id (str_strip request.passenger_name)
          pickup_station drop_station
          (match request.meal_preference with
           | none => none
           | some m => if m = "" then none else some (str_strip m)) with
      | .error e => (.error e, bookings)
      | .ok booking => (.ok booking, bookings ++ [booking])

def add_meal_to_booking (request : MealRequest) (bookings : List Booking) :
    Except HTTPException Booking × List Booking :=
  match _find_booking_index request.seat_id bookings with
  | none => (.error ⟨404, "Booking not found for this seat"⟩, bookings)
  | some booking_index =>
    match bookings[booking_index]? with
    | none => (.error ⟨404, "Booking not found for this seat"⟩, bookings)
    | some existing_booking =>
      let updated_booking :=
        { existing_booking with meal_preference := some (str_strip request.meal_preference) }
      (.ok updated_booking, bookings.set booking_index updated_booking)

structure CancelResponse where
  status : String
  seat_id : Nat
  passenger_name : String
deriving DecidableEq, Repr

def cancel_booking (seat_id : Nat) (bookings : List Booking) :
    Except HTTPException CancelResponse × List Booking :=
  match _find_booking_index seat_id bookings with
  | none => (.error ⟨404, "No active booking for this seat"⟩, bookings)
  | some booking_index =>
    match bookings[booking_index]? with
    | none => (.error ⟨404, "No active booking for this seat"⟩, bookings)
    | some cancelled_booking =>
      (.ok { status := "cancelled", seat_id := seat_id,
             passenger_name := cancelled_booking.passenger_name },
       bookings.eraseIdx booking_index)

/-- One registry operation, as issued through the HTTP surface. -/
inductive Op where
  | book (request : BookRequest)
  | meal (request : MealRequest)
  | cancel (seat_id : Nat)

/-- The state after an operation (a raised HTTPException leaves the state alone). -/
def applyOp (op : Op) (bookings : List Booking) : List Booking :=
  match op with
  | .book request => (book_seat request bookings).2
  | .meal request => (add_meal_to_booking request bookings).2
  | .cancel seat_id => (cancel_booking seat_id bookings).2

/-- Registry states reachable from the seeded initial state. -/
inductive Reachable : List Booking → Prop where
  | init : Reachable initialBookings
  | step {s : List Booking} (op : Op) : Reachable s → Reachable (applyOp op s)

/-- A booking's route is valid: both stations known, pickup strictly before drop. -/
def RouteOK (b : Booking) : Prop :=
  b.pickup_station ∈ STATIONS ∧ b.drop_station ∈ STATIONS ∧
    STATIONS.indexOf b.pickup_station < STATIONS.indexOf b.drop_station

/-- Two-digit zero-padded decimal rendering, stated from the spec's words. -/
def zero_padded_two (n : Nat) : String :=
  String.mk (List.replicate (2 - (Nat.repr n).length) '0' ++ (Nat.repr n).data)

/-- A booking request for free seat 5 with the route reversed (Surat before Nadiad). -/
def reversed_route_request : BookRequest :=
  { seat_id := 5, passenger_name := "Test User",
    pickup_station := "Surat", drop_station := "Nadiad" }

/-- The spec's example booking request for seat 5. -/
def amit_request : BookRequest :=
  { seat_id := 5, passenger_name := "Amit Rao",
    pickup_station := "Nadiad", drop_station := "Surat",
    meal_preference := some "Vegetarian" }

/-- A meal amendment request for seat 5. -/
def jain_meal_request : MealRequest :=
  { seat_id := 5, meal_preference := "Jain" }

/-- A boundary-valid booking request (raw passenger_name has 2 chars) whose
passenger_name strips to a single character. -/
def short_name_request : BookRequest :=
  { seat_id := 5, passenger_name := "a ",
    pickup_station := "Nadiad", drop_station := "Surat" }

/-! ### Helper lemmas about the linear-scan lookup -/

theorem find_booking_index_none_iff (sid : Nat) (s : List Booking) :
    _find_booking_index sid s = none ↔ ∀ b ∈ s, b.seat_id ≠ sid := by
  induction s with
  | nil => simp [_find_booking_index]
  | cons hd tl ih =>
    simp only [_find_booking_index]
    by_cases h : hd.seat_id = sid
    · simp [h]
    · simp [h, ih, Option.map_eq_none]

theorem is_seat_booked_false_iff (sid : Nat) (s : List Booking) :
    _is_seat_booked sid s = false ↔ ∀ b ∈ s, b.seat_id ≠ sid := by
  unfold _is_seat_booked
  rw [← find_booking_index_none_iff sid s]
  cases _find_booking_index sid s <;> simp

theorem find_booking_index_some (sid : Nat) (s : List Booking) (i : Nat)
    (h : _find_booking_index sid s = some i) :
    ∃ b, s[i]? = some b ∧ b.seat_id = sid := by
  induction s generalizing i with
  | nil => simp [_find_booking_index] at h
  | cons hd tl ih =>
    simp only [_find_booking_index] at h
    by_cases hhd : hd.seat_id = sid
    · simp only [hhd, if_true, Option.some.injEq] at h
      exact ⟨hd, by simp [← h], hhd⟩
    · rw [if_neg hhd] at h
      cases hfind : _find_booking_index sid tl with
      | none => rw [hfind] at h; simp at h
      | some j =>
        rw [hfind] at h
        simp only [Option.map, Option.some.injEq] at h
        obtain ⟨b, hb, hbs⟩ := ih j hfind
        exact ⟨b, by simp [← h]; exact hb, hbs⟩

theorem find_booking_index_append_of_none (sid : Nat) (s : List Booking) (b : Booking)
    (hnone : _find_booking_index sid s = none) (hb : b.seat_id = sid) :
    _find_booking_index sid (s ++ [b]) = some s.length := by
  induction s with
  | nil => simp [_find_booking_index, hb]
  | cons hd tl ih =>
    simp only [_find_booking_index] at hnone ⊢
    by_cases hhd : hd.seat_id = sid
    · simp [hhd] at hnone
    · rw [if_neg hhd] at hnone ⊢
      cases hfind : _find_booking_index sid tl with
      | none => simp [ih hfind]
      | some j => rw [hfind] at hnone; simp at hnone

theorem is_seat_booked_append_self (sid : Nat) (s : List Booking) (b : Booking)
    (hb : b.seat_id = sid) : _is_seat_booked sid (s ++ [b]) = true := by
  induction s with
  | nil => simp [_is_seat_booked, _find_booking_index, hb]
  | cons hd tl ih =>
    simp only [_is_seat_booked, _find_booking_index] at ih ⊢
    by_cases hhd : hd.seat_id = sid
    · simp [hhd]
    · simpa [hhd] using ih

theorem list_set_getElem_self {α : Type} (l : List α) (i : Nat) (a : α)
    (h : l[i]? = some a) : l.set i a = l := by
  induction l generalizing i with
  | nil => simp at h
  | cons hd tl ih =>
    cases i with
    | zero => simp at h; simp [h]
    | succ j => simp at h; simp [List.set, ih j h]

theorem list_set_append_length {α : Type} (l : List α) (b c : α) :
    (l ++ [b]).set l.length c = l ++ [c] := by
  induction l with
  | nil => simp
  | cons hd tl ih => simp [List.set, ih]

theorem list_eraseIdx_append_length {α : Type} (l : List α) (b : α) :
    (l ++ [b]).eraseIdx l.length = l := by
  induction l with
  | nil => simp
  | cons hd tl ih => simp [List.eraseIdx, ih]

/-! ### Characterization of the operations -/

theorem validate_error_status (p d : String) (e : HTTPException)
    (h : _validate_route_stations p d = .error e) : e.status_code = 400 := by
  simp only [_validate_route_stations, _normalize_station_name] at h
  split_ifs at h
  all_goals cases h
  all_goals rfl

theorem validate_ok_spec (p d np nd : String)
    (h : _validate_route_stations p d = .ok (np, nd)) :
    np = str_strip p ∧ nd = str_strip d ∧ np ∈ STATIONS ∧ nd ∈ STATIONS ∧
      STATIONS.indexOf np < STATIONS.indexOf nd := by
  simp only [_validate_route_stations, _normalize_station_name] at h
  split_ifs at h with h1 h2 h3
  all_goals simp_all

theorem validate_ok_of_conditions (p d : String)
    (h1 : str_strip p ∈ STATIONS) (h2 : str_strip d ∈ STATIONS)
    (h3 : STATIONS.indexOf (str_strip p) < STATIONS.indexOf (str_strip d)) :
    _validate_route_stations p d = .ok (str_strip p, str_strip d) := by
  simp only [_validate_route_stations, _normalize_station_name]
  rw [if_pos h1, if_pos h2, if_neg (Nat.not_le.mpr h3)]

theorem str_strip_length_le (s : String) : (str_strip s).length ≤ s.length := by
  have h1 : (s.data.dropWhile Char.isWhitespace).length ≤ s.data.length :=
    (List.dropWhile_sublist Char.isWhitespace).length_le
  have h2 : ((s.data.dropWhile Char.isWhitespace).reverse.dropWhile Char.isWhitespace).length ≤
      (s.data.dropWhile Char.isWhitespace).reverse.length :=
    (List.dropWhile_sublist Char.isWhitespace).length_le
  simp only [str_strip, String.length, List.length_reverse] at *
  omega

theorem station_name_length_le (nm : String) (h : nm ∈ STATIONS) : nm.length ≤ 60 := by
  have hall : ∀ x ∈ STATIONS, x.length ≤ 60 := by decide
  exact hall nm h

theorem pydantic_Booking_ok (seat_id : Nat)
    (passenger_name pickup_station drop_station : String) (meal_preference : Option String)
    (h : BookingFieldsOK passenger_name pickup_station drop_station meal_preference) :
    pydantic_Booking seat_id passenger_name pickup_station drop_station meal_preference =
      .ok { seat_id, passenger_name, pickup_station, drop_station, meal_preference } := by
  rw [pydantic_Booking, if_pos h]

theorem pydantic_Booking_error (seat_id : Nat)
    (passenger_name pickup_station drop_station : String) (meal_preference : Option String)
    (h : ¬ BookingFieldsOK passenger_name pickup_station drop_station meal_preference) :
    pydantic_Booking seat_id passenger_name pickup_station drop_station meal_preference =
      .error ⟨500, "Internal Server Error"⟩ := by
  rw [pydantic_Booking, if_neg h]

theorem book_seat_booked (request : BookRequest) (s : List Booking)
    (h : _is_seat_booked request.seat_id s = true) :
    book_seat request s = (.error ⟨409, "Seat is already booked"⟩, s) := by
  simp [book_seat, h]

theorem book_seat_validate_error (request : BookRequest) (s : List Booking)
    (e : HTTPException) (hfree : _is_seat_booked request.seat_id s = false)
    (he : _validate_route_stations request.pickup_station request.drop_station = .error e) :
    book_seat request s = (.error e, s) := by
  simp [book_seat, hfree, he]

theorem book_seat_ok_eq (request : BookRequest) (s : List Booking) (np nd : String)
    (hfree : _is_seat_booked request.seat_id s = false)
    (hok : _validate_route_stations request.pickup_station request.drop_station = .ok (np, nd))
    (hval : BookingFieldsOK (str_strip request.passenger_name) np nd
      (match request.meal_preference with
       | none => none
       | some m => if m = "" then none else some (str_strip m))) :
    book_seat request s =
      (.ok { seat_id := request.seat_id,
             passenger_name := str_strip request.passenger_name,
             pickup_station := np, drop_station := nd,
             meal_preference :=
               match request.meal_preference with
               | none => none
               | some m => if m = "" then none else some (str_strip m) },
       s ++ [{ seat_id := request.seat_id,
               passenger_name := str_strip request.passenger_name,
               pickup_station := np, drop_station := nd,
               meal_preference :=
                 match request.meal_preference with
                 | none => none
                 | some m => if m = "" then none else some (str_strip m) }]) := by
  have hpb := pydantic_Booking_ok request.seat_id (str_strip request.passenger_name) np nd
    (match request.meal_preference with
     | none => none
     | some m => if m = "" then none else some (str_strip m)) hval
  simp [book_seat, hfree, hok, hpb]

theorem book_seat_booking_invalid (request : BookRequest) (s : List Booking) (np nd : String)
    (hfree : _is_seat_booked request.seat_id s = false)
    (hok : _validate_route_stations request.pickup_station request.drop_station = .ok (np, nd))
    (hval : ¬ BookingFieldsOK (str_strip request.passenger_name) np nd
      (match request.meal_preference with
       | none => none
       | some m => if m = "" then none else some (str_strip m))) :
    book_seat request s = (.error ⟨500, "Internal Server Error"⟩, s) := by
  have hpb := pydantic_Booking_error request.seat_id (str_strip request.passenger_name) np nd
    (match request.meal_preference with
     | none => none
     | some m => if m = "" then none else some (str_strip m)) hval
  simp [book_seat, hfree, hok, hpb]

theorem add_meal_not_found (request : MealRequest) (s : List Booking)
    (h : _find_booking_index request.seat_id s = none) :
    add_meal_to_booking request s = (.error ⟨404, "Booking not found for this seat"⟩, s) := by
  simp [add_meal_to_booking, h]

theorem add_meal_found (request : MealRequest) (s : List Booking) (i : Nat)
    (existing : Booking) (hi : _find_booking_index request.seat_id s = some i)
    (hex : s[i]? = some existing) :
    add_meal_to_booking request s =
      (.ok { existing with meal_preference := some (str_strip request.meal_preference) },
       s.set i { existing with meal_preference := some (str_strip request.meal_preference) }) := by
  simp [add_meal_to_booking, hi, hex]

theorem cancel_not_found (seat_id : Nat) (s : List Booking)
    (h : _find_booking_index seat_id s = none) :
    cancel_booking seat_id s = (.error ⟨404, "No active booking for this seat"⟩, s) := by
  simp [cancel_booking, h]

theorem cancel_found (seat_id : Nat) (s : List Booking) (i : Nat) (cancelled : Booking)
    (hi : _find_booking_index seat_id s = some i) (hex : s[i]? = some cancelled) :
    cancel_booking seat_id s =
      (.ok { status := "cancelled", seat_id := seat_id,
             passenger_name := cancelled.passenger_name },
       s.eraseIdx i) := by
  simp [cancel_booking, hi, hex]

/-- Shape of the state after book_seat: unchanged, or the new booking appended. -/
theorem book_seat_state (request : BookRequest) (s : List Booking) :
    (book_seat request s).2 = s ∨
      (_is_seat_booked request.seat_id s = false ∧ ∃ np nd b,
        _validate_route_stations request.pickup_station request.drop_station = .ok (np, nd) ∧
        (book_seat request s).2 = s ++ [b] ∧ b.seat_id = request.seat_id ∧
        b.pickup_station = np ∧ b.drop_station = nd) := by
  cases hb : _is_seat_booked request.seat_id s with
  | true => left; rw [book_seat_booked request s hb]
  | false =>
    cases hv : _validate_route_stations request.pickup_station request.drop_station with
    | error e => left; rw [book_seat_validate_error request s e hb hv]
    | ok r =>
      obtain ⟨np, nd⟩ := r
      by_cases hval : BookingFieldsOK (str_strip request.passenger_name) np nd
          (match request.meal_preference with
           | none => none
           | some m => if m = "" then none else some (str_strip m))
      · right
        refine ⟨rfl, np, nd, ?_⟩
        rw [book_seat_ok_eq request s np nd hb hv hval]
        exact ⟨_, rfl, rfl, rfl, rfl, rfl⟩
      · left
        rw [book_seat_booking_invalid request s np nd hb hv hval]

/-- Shape of the state after add_meal: unchanged, or one booking's meal field replaced. -/
theorem add_meal_state (request : MealRequest) (s : List Booking) :
    (add_meal_to_booking request s).2 = s ∨
      ∃ i existing, s[i]? = some existing ∧
        (add_meal_to_booking request s).2 =
          s.set i { existing with meal_preference := some (str_strip request.meal_preference) } := by
  cases hi : _find_booking_index request.seat_id s with
  | none => left; rw [add_meal_not_found request s hi]
  | some i =>
    obtain ⟨existing, hex, _⟩ := find_booking_index_some request.seat_id s i hi
    right
    exact ⟨i, existing, hex, by rw [add_meal_found request s i existing hi hex]⟩

/-- Shape of the state after cancel_booking: unchanged, or one booking removed. -/
theorem cancel_state (seat_id : Nat) (s : List Booking) :
    (cancel_booking seat_id s).2 = s ∨ ∃ i, (cancel_booking seat_id s).2 = s.eraseIdx i := by
  cases hi : _find_booking_index seat_id s with
  | none => left; rw [cancel_not_found seat_id s hi]
  | some i =>
    obtain ⟨cancelled, hex, _⟩ := find_booking_index_some seat_id s i hi
    right
    exact ⟨i, by rw [cancel_found seat_id s i cancelled hi hex]⟩

/-! ### Invariant preservation -/

theorem list_mem_of_getElem {α : Type} (l : List α) (i : Nat) (a : α)
    (h : l[i]? = some a) : a ∈ l := by
  obtain ⟨hlt, rfl⟩ := List.getElem?_eq_some.mp h
  exact List.getElem_mem hlt

theorem unique_seats_applyOp (op : Op) (s : List Booking)
    (h : (s.map Booking.seat_id).Nodup) : ((applyOp op s).map Booking.seat_id).Nodup := by
  cases op with
  | book request =>
    rcases book_seat_state request s with h2 | ⟨hfree, np, nd, b, hok, h2, hsid, hp, hd⟩
    · rw [applyOp, h2]; exact h
    · rw [applyOp, h2, List.map_append, List.nodup_append]
      refine ⟨h, by simp, ?_⟩
      intro x hx hxb
      simp only [List.map_cons, List.map_nil, List.mem_singleton] at hxb
      obtain ⟨c, hc, rfl⟩ := List.mem_map.mp hx
      exact absurd (hxb.trans hsid) ((is_seat_booked_false_iff request.seat_id s).mp hfree c hc)
  | meal request =>
    rcases add_meal_state request s with h2 | ⟨i, existing, hex, h2⟩
    · rw [applyOp, h2]; exact h
    · rw [applyOp, h2, List.map_set, list_set_getElem_self]
      · exact h
      · rw [List.getElem?_map, hex]; rfl
  | cancel sid =>
    rcases cancel_state sid s with h2 | ⟨i, h2⟩
    · rw [applyOp, h2]; exact h
    · rw [applyOp, h2]; exact h.sublist ((List.eraseIdx_sublist s i).map _)

theorem routes_ok_applyOp (op : Op) (s : List Booking)
    (h : ∀ b ∈ s, RouteOK b) : ∀ b ∈ applyOp op s, RouteOK b := by
  cases op with
  | book request =>
    rcases book_seat_state request s with h2 | ⟨hfree, np, nd, b, hok, h2, hsid, hp, hd⟩
    · rw [applyOp, h2]; exact h
    · rw [applyOp, h2]
      intro c hc
      rcases List.mem_append.mp hc with hc | hc
      · exact h c hc
      · simp only [List.mem_singleton] at hc
        subst hc
        obtain ⟨_, _, hnp, hnd, hlt⟩ := validate_ok_spec _ _ _ _ hok
        exact ⟨by rw [hp]; exact hnp, by rw [hd]; exact hnd, by rw [hp, hd]; exact hlt⟩
  | meal request =>
    rcases add_meal_state request s with h2 | ⟨i, existing, hex, h2⟩
    · rw [applyOp, h2]; exact h
    · rw [applyOp, h2]
      intro c hc
      rcases List.mem_or_eq_of_mem_set hc with hc | rfl
      · exact h c hc
      · exact h existing (list_mem_of_getElem s i existing hex)
  | cancel sid =>
    rcases cancel_state sid s with h2 | ⟨i, h2⟩
    · rw [applyOp, h2]; exact h
    · rw [applyOp, h2]
      intro c hc
      exact h c ((List.eraseIdx_sublist s i).subset hc)

theorem find_none_of_not_booked (sid : Nat) (s : List Booking)
    (h : _is_seat_booked sid s = false) : _find_booking_index sid s = none := by
  unfold _is_seat_booked at h
  cases hf : _find_booking_index sid s
  · rfl
  · rw [hf] at h; simp at h

theorem list_seats_booked_mem (sid : Nat) (s : List Booking) (h1 : 1 ≤ sid)
    (h30 : sid ≤ TOTAL_SEATS) :
    ∃ seat ∈ list_seats s, seat.seat_id = sid ∧ seat.is_booked = _is_seat_booked sid s := by
  refine ⟨{ seat_id := sid, seat_label := _seat_label sid,
            is_booked := _is_seat_booked sid s }, ?_, rfl, rfl⟩
  unfold list_seats
  apply List.mem_map.mpr
  refine ⟨sid - 1, List.mem_range.mpr (by show sid - 1 < 30; unfold TOTAL_SEATS at h30; omega), ?_⟩
  have hs : sid - 1 + 1 = sid := by omega
  rw [hs]

theorem book_seat_ok_inv (request : BookRequest) (s : List Booking) (b : Booking)
    (s2 : List Booking) (h : book_seat request s = (.ok b, s2)) :
    b.seat_id = request.seat_id ∧ s2 = s ++ [b] := by
  cases hb : _is_seat_booked request.seat_id s with
  | true => rw [book_seat_booked request s hb] at h; simp at h
  | false =>
    cases hv : _validate_route_stations request.pickup_station request.drop_station with
    | error e => rw [book_seat_validate_error request s e hb hv] at h; simp at h
    | ok r =>
      obtain ⟨np, nd⟩ := r
      by_cases hval : BookingFieldsOK (str_strip request.passenger_name) np nd
          (match request.meal_preference with
           | none => none
           | some m => if m = "" then none else some (str_strip m))
      · rw [book_seat_ok_eq request s np nd hb hv hval] at h
        obtain ⟨h1, h2⟩ := Prod.mk.injEq .. ▸ h
        obtain rfl := Except.ok.inj h1
        exact ⟨rfl, h2.symm⟩
      · rw [book_seat_booking_invalid request s np nd hb hv hval] at h
        simp at h

/-- Core of the round trip: on a state where the seat is free, appending a booking,
updating its meal and cancelling it restores the original state. -/
theorem append_meal_cancel (s : List Booking) (b : Booking) (mrequest : MealRequest)
    (hfree : _is_seat_booked b.seat_id s = false) (hsid : mrequest.seat_id = b.seat_id) :
    (cancel_booking b.seat_id ((add_meal_to_booking mrequest (s ++ [b])).2)).2 = s := by
  have hnone := find_none_of_not_booked b.seat_id s hfree
  have hfind1 : _find_booking_index mrequest.seat_id (s ++ [b]) = some s.length := by
    rw [hsid]; exact find_booking_index_append_of_none b.seat_id s b hnone rfl
  have hex1 : (s ++ [b])[s.length]? = some b := List.getElem?_concat_length s b
  rw [add_meal_found mrequest (s ++ [b]) s.length b hfind1 hex1]
  rw [list_set_append_length]
  have hfind2 : _find_booking_index b.seat_id
      (s ++ [{ b with meal_preference := some (str_strip mrequest.meal_preference) }]) =
      some s.length :=
    find_booking_index_append_of_none b.seat_id s _ hnone rfl
  have hex2 := List.getElem?_concat_length s
    { b with meal_preference := some (str_strip mrequest.meal_preference) }
  rw [cancel_found b.seat_id _ s.length _ hfind2 hex2]
  exact list_eraseIdx_append_length s _

/-! ### Claim theorems -/

/-- C1: in every reachable registry state (seeded initial state closed under
book_seat, add_meal and cancel_booking) no two active bookings share a seat_id. -/
theorem claim_reachable_at_most_one_booking_per_seat (s : List Booking)
    (h : Reachable s) : s.Pairwise (fun b1 b2 => b1.seat_id ≠ b2.seat_id) := by
  have hm : (s.map Booking.seat_id).Nodup := by
    induction h with
    | init => decide
    | step op _ ih => exact unique_seats_applyOp op _ ih
  rw [List.Nodup, List.pairwise_map] at hm
  exact hm

/-- Witness for C1 at the seeded initial state. -/
theorem claim_reachable_at_most_one_booking_per_seat_witness :
    initialBookings.Pairwise (fun b1 b2 => b1.seat_id ≠ b2.seat_id) :=
  claim_reachable_at_most_one_booking_per_seat initialBookings Reachable.init

/-- C2: booking a seat that already has an active booking fails with the 409
seat-conflict error; in particular, after a successful booking a second request
for the same seat fails with that error. -/
theorem claim_book_seat_conflict :
    (∀ (s : List Booking) (request : BookRequest),
        _is_seat_booked request.seat_id s = true →
        (book_seat request s).1 = .error ⟨409, "Seat is already booked"⟩) ∧
    (∀ (s s2 : List Booking) (r1 r2 : BookRequest) (b : Booking),
        book_seat r1 s = (.ok b, s2) → r2.seat_id = r1.seat_id →
        (book_seat r2 s2).1 = .error ⟨409, "Seat is already booked"⟩) := by
  constructor
  · intro s request h
    rw [book_seat_booked request s h]
  · intro s s2 r1 r2 b hok hsid
    obtain ⟨hb, rfl⟩ := book_seat_ok_inv r1 s b s2 hok
    have hbooked : _is_seat_booked r2.seat_id (s ++ [b]) = true :=
      is_seat_booked_append_self r2.seat_id s b (by rw [hb, hsid])
    rw [book_seat_booked r2 (s ++ [b]) hbooked]

/-- Witness for C2: booking seat 2 of the seeded state, which is already booked. -/
theorem claim_book_seat_conflict_witness :
    (book_seat { seat_id := 2, passenger_name := "Test User" } initialBookings).1 =
      .error ⟨409, "Seat is already booked"⟩ :=
  claim_book_seat_conflict.1 initialBookings { seat_id := 2, passenger_name := "Test User" }
    (by decide)

/-- C8: in every reachable registry state, every stored booking names two of the
fixed stations and its pickup index is strictly below its drop index. -/
theorem claim_reachable_routes_valid (s : List Booking) (h : Reachable s) :
    ∀ b ∈ s, b.pickup_station ∈ STATIONS ∧ b.drop_station ∈ STATIONS ∧
      STATIONS.indexOf b.pickup_station < STATIONS.indexOf b.drop_station := by
  induction h with
  | init => decide
  | step op _ ih => exact routes_ok_applyOp op _ ih

/-- Witness for C8 at the first seeded booking of the initial state. -/
theorem claim_reachable_routes_valid_witness :
    "Ahmedabad (Paldi)" ∈ STATIONS ∧ "Mumbai (Dadar)" ∈ STATIONS ∧
      STATIONS.indexOf "Ahmedabad (Paldi)" < STATIONS.indexOf "Mumbai (Dadar)" :=
  claim_reachable_routes_valid initialBookings Reachable.init
    { seat_id := 2, passenger_name := "Riya Shah", meal_preference := some "Vegetarian" }
    (by decide)

/-- C9: seat labels are U plus the zero-padded seat id for ids 1..15 and L plus
the zero-padded value of seat id minus 15 for ids 16..30. -/
theorem claim_seat_label_format (seat_id : Nat) :
    (1 ≤ seat_id → seat_id ≤ 15 → _seat_label seat_id = "U" ++ zero_padded_two seat_id) ∧
    (16 ≤ seat_id → seat_id ≤ 30 →
      _seat_label seat_id = "L" ++ zero_padded_two (seat_id - 15)) := by
  have h : ∀ n, n < 31 →
      (1 ≤ n → n ≤ 15 → _seat_label n = "U" ++ zero_padded_two n) ∧
      (16 ≤ n → n ≤ 30 → _seat_label n = "L" ++ zero_padded_two (n - 15)) := by decide
  constructor
  · intro h1 h15; exact (h seat_id (by omega)).1 h1 h15
  · intro h16 h30; exact (h seat_id (by omega)).2 h16 h30

/-- Witness for C9 at seat ids 5 and 20. -/
theorem claim_seat_label_format_witness :
    _seat_label 5 = "U" ++ zero_padded_two 5 ∧
    _seat_label 20 = "L" ++ zero_padded_two (20 - 15) :=
  ⟨(claim_seat_label_format 5).1 (by decide) (by decide),
   (claim_seat_label_format 20).2 (by decide) (by decide)⟩

/-- C10: every operation that fails with an HTTPException leaves the
active-booking collection exactly as it was. -/
theorem claim_ops_atomic_on_failure :
    (∀ (request : BookRequest) (s : List Booking) (e : HTTPException),
        (book_seat request s).1 = .error e → (book_seat request s).2 = s) ∧
    (∀ (request : MealRequest) (s : List Booking) (e : HTTPException),
        (add_meal_to_booking request s).1 = .error e →
          (add_meal_to_booking request s).2 = s) ∧
    (∀ (seat_id : Nat) (s : List Booking) (e : HTTPException),
        (cancel_booking seat_id s).1 = .error e → (cancel_booking seat_id s).2 = s) := by
  refine ⟨?_, ?_, ?_⟩
  · intro request s e h
    cases hb : _is_seat_booked request.seat_id s with
    | true => rw [book_seat_booked request s hb]
    | false =>
      cases hv : _validate_route_stations request.pickup_station request.drop_station with
      | error e2 => rw [book_seat_validate_error request s e2 hb hv]
      | ok r =>
        obtain ⟨np, nd⟩ := r
        by_cases hval : BookingFieldsOK (str_strip request.passenger_name) np nd
            (match request.meal_preference with
             | none => none
             | some m => if m = "" then none else some (str_strip m))
        · rw [book_seat_ok_eq request s np nd hb hv hval] at h
          simp at h
        · rw [book_seat_booking_invalid request s np nd hb hv hval]
  · intro request s e h
    cases hf : _find_booking_index request.seat_id s with
    | none => rw [add_meal_not_found request s hf]
    | some i =>
      obtain ⟨existing, hex, _⟩ := find_booking_index_some request.seat_id s i hf
      rw [add_meal_found request s i existing hf hex] at h
      simp at h
  · intro seat_id s e h
    cases hf : _find_booking_index seat_id s with
    | none => rw [cancel_not_found seat_id s hf]
    | some i =>
      obtain ⟨cancelled, hex, _⟩ := find_booking_index_some seat_id s i hf
      rw [cancel_found seat_id s i cancelled hf hex] at h
      simp at h

/-- Witness for C10: the failing conflict booking on seat 2 leaves the seeded state alone. -/
theorem claim_ops_atomic_on_failure_witness :
    (book_seat { seat_id := 2, passenger_name := "Test User" } initialBookings).2 =
      initialBookings :=
  claim_ops_atomic_on_failure.1 { seat_id := 2, passenger_name := "Test User" }
    initialBookings ⟨409, "Seat is already booked"⟩ (by decide)

/-- C3: on a free seat, book_seat fails with a 400 invalid-route error exactly when
the trimmed pickup or drop station is unknown or the pickup index is not strictly
below the drop index. -/
theorem claim_book_seat_invalid_route_iff (s : List Booking) (request : BookRequest)
    (hfree : _is_seat_booked request.seat_id s = false) :
    (∃ detail, (book_seat request s).1 = .error ⟨400, detail⟩) ↔
      (str_strip request.pickup_station ∉ STATIONS ∨
       str_strip request.drop_station ∉ STATIONS ∨
       STATIONS.indexOf (str_strip request.pickup_station) ≥
         STATIONS.indexOf (str_strip request.drop_station)) := by
  constructor
  · rintro ⟨detail, hd⟩
    by_contra hcon
    push_neg at hcon
    obtain ⟨h1, h2, h3⟩ := hcon
    have hok := validate_ok_of_conditions request.pickup_station request.drop_station h1 h2 h3
    by_cases hval : BookingFieldsOK (str_strip request.passenger_name)
        (str_strip request.pickup_station) (str_strip request.drop_station)
        (match request.meal_preference with
         | none => none
         | some m => if m = "" then none else some (str_strip m))
    · rw [book_seat_ok_eq request s _ _ hfree hok hval] at hd
      simp at hd
    · rw [book_seat_booking_invalid request s _ _ hfree hok hval] at hd
      simp at hd
  · intro hcon
    cases hv : _validate_route_stations request.pickup_station request.drop_station with
    | error e =>
      refine ⟨e.detail, ?_⟩
      rw [book_seat_validate_error request s e hfree hv]
      have h400 := validate_error_status _ _ _ hv
      obtain ⟨code, detail⟩ := e
      simp only at h400 ⊢
      rw [h400]
    | ok r =>
      exfalso
      obtain ⟨np, nd⟩ := r
      obtain ⟨hps, hds, hnp, hnd, hlt⟩ := validate_ok_spec _ _ _ _ hv
      subst hps
      subst hds
      rcases hcon with h | h | h
      · exact h hnp
      · exact h hnd
      · exact absurd hlt (Nat.not_lt.mpr h)

/-- Witness for C3: a reversed route on the free seat 5 is rejected with a 400. -/
theorem claim_book_seat_invalid_route_iff_witness :
    ∃ detail, (book_seat reversed_route_request initialBookings).1 = .error ⟨400, detail⟩ :=
  (claim_book_seat_invalid_route_iff initialBookings reversed_route_request
    (by decide)).mpr (by decide)

/-- C4 counterexample: booking free seat 5 with passenger_name "a " (raw length 2,
stripped length 1) has a valid route on the seeded state, yet book_seat hits the
Booking model's ValidationError (500) and appends nothing, so seat-free plus
route-valid does not suffice for success. -/
theorem claim_book_seat_success_counterexample :
    _is_seat_booked short_name_request.seat_id initialBookings = false ∧
    _validate_route_stations short_name_request.pickup_station
      short_name_request.drop_station = .ok ("Nadiad", "Surat") ∧
    1 ≤ short_name_request.seat_id ∧ short_name_request.seat_id ≤ 30 ∧
    book_seat short_name_request initialBookings =
      (.error ⟨500, "Internal Server Error"⟩, initialBookings) := by
  decide

/-- C4 (amended): a book_seat request on a free seat with a valid route, whose raw
passenger_name and meal_preference satisfy the boundary length bounds and whose
trimmed passenger_name keeps at least 2 characters (so the Booking model's
re-validation passes), appends the new booking, trims passenger_name and
meal_preference, stores an empty meal_preference as absent, and list_seats then
reports the seat as booked. -/
theorem claim_book_seat_success (s : List Booking) (request : BookRequest) (np nd : String)
    (hfree : _is_seat_booked request.seat_id s = false)
    (hok : _validate_route_stations request.pickup_station request.drop_station = .ok (np, nd))
    (h1 : 1 ≤ request.seat_id) (h30 : request.seat_id ≤ 30)
    (hname2 : 2 ≤ (str_strip request.passenger_name).length)
    (hname80 : request.passenger_name.length ≤ 80)
    (hmeal60 : Option.all (fun m => decide (m.length ≤ 60)) request.meal_preference = true) :
    ∃ b, book_seat request s = (.ok b, s ++ [b]) ∧
      b.seat_id = request.seat_id ∧
      b.passenger_name = str_strip request.passenger_name ∧
      b.pickup_station = np ∧ b.drop_station = nd ∧
      (request.meal_preference = none → b.meal_preference = none) ∧
      (request.meal_preference = some "" → b.meal_preference = none) ∧
      (∀ m, request.meal_preference = some m → m ≠ "" →
        b.meal_preference = some (str_strip m)) ∧
      ∃ seat ∈ list_seats (s ++ [b]), seat.seat_id = request.seat_id ∧
        seat.is_booked = true := by
  obtain ⟨hps, hds, hnp, hnd, hlt⟩ :=
    validate_ok_spec request.pickup_station request.drop_station np nd hok
  have hval : BookingFieldsOK (str_strip request.passenger_name) np nd
      (match request.meal_preference with
       | none => none
       | some m => if m = "" then none else some (str_strip m)) := by
    refine ⟨hname2, le_trans (str_strip_length_le _) hname80,
      station_name_length_le np hnp, station_name_length_le nd hnd, ?_⟩
    cases hm : request.meal_preference with
    | none => simp
    | some m =>
      by_cases hme : m = ""
      · simp [hme]
      · have hm60 : m.length ≤ 60 := by
          rw [hm] at hmeal60
          simpa using hmeal60
        simp [hme]
        exact le_trans (str_strip_length_le m) hm60
  refine ⟨_, book_seat_ok_eq request s np nd hfree hok hval, rfl, rfl, rfl, rfl,
    (fun hm => by simp [hm]), (fun hm => by simp [hm]),
    (fun m hm hne => by simp [hm, hne]), ?_⟩
  obtain ⟨seat, hmem, hsid2, hbk⟩ :=
    list_seats_booked_mem request.seat_id
      (s ++ [{ seat_id := request.seat_id,
               passenger_name := str_strip request.passenger_name,
               pickup_station := np, drop_station := nd,
               meal_preference :=
                 match request.meal_preference with
                 | none => none
                 | some m => if m = "" then none else some (str_strip m) }]) h1 h30
  exact ⟨seat, hmem, hsid2, by rw [hbk]; exact is_seat_booked_append_self _ s _ rfl⟩

/-- Witness for C4: the spec's example booking of seat 5 by Amit Rao. -/
theorem claim_book_seat_success_witness :
    ∃ b, book_seat amit_request initialBookings = (.ok b, initialBookings ++ [b]) ∧
      b.seat_id = amit_request.seat_id ∧
      b.passenger_name = str_strip amit_request.passenger_name ∧
      b.pickup_station = "Nadiad" ∧ b.drop_station = "Surat" ∧
      (amit_request.meal_preference = none → b.meal_preference = none) ∧
      (amit_request.meal_preference = some "" → b.meal_preference = none) ∧
      (∀ m, amit_request.meal_preference = some m → m ≠ "" →
        b.meal_preference = some (str_strip m)) ∧
      ∃ seat ∈ list_seats (initialBookings ++ [b]), seat.seat_id = amit_request.seat_id ∧
        seat.is_booked = true :=
  claim_book_seat_success initialBookings amit_request "Nadiad" "Surat"
    (by decide) (by decide) (by decide) (by decide) (by decide) (by decide) (by decide)

/-- C5: booking a free seat, adding a meal and cancelling it restores the registry
to exactly the state it had before the booking. -/
theorem claim_round_trip (s : List Booking) (request : BookRequest)
    (mrequest : MealRequest) (np nd : String)
    (hfree : _is_seat_booked request.seat_id s = false)
    (hok : _validate_route_stations request.pickup_station request.drop_station = .ok (np, nd))
    (hsid : mrequest.seat_id = request.seat_id) :
    (cancel_booking request.seat_id
      ((add_meal_to_booking mrequest (book_seat request s).2).2)).2 = s := by
  by_cases hval : BookingFieldsOK (str_strip request.passenger_name) np nd
      (match request.meal_preference with
       | none => none
       | some m => if m = "" then none else some (str_strip m))
  · obtain ⟨b, s2, hbs⟩ : ∃ b s2, book_seat request s = (.ok b, s2) :=
      ⟨_, _, book_seat_ok_eq request s np nd hfree hok hval⟩
    obtain ⟨hbsid, rfl⟩ := book_seat_ok_inv request s b s2 hbs
    rw [hbs]
    have hfree2 : _is_seat_booked b.seat_id s = false := by rw [hbsid]; exact hfree
    have hsid2 : mrequest.seat_id = b.seat_id := by rw [hbsid]; exact hsid
    have hrt := append_meal_cancel s b mrequest hfree2 hsid2
    rw [← hbsid]
    exact hrt
  · have hbfail := book_seat_booking_invalid request s np nd hfree hok hval
    have h2 : (book_seat request s).2 = s := by rw [hbfail]
    rw [h2]
    have hnone := find_none_of_not_booked request.seat_id s hfree
    have hmn : _find_booking_index mrequest.seat_id s = none := by rw [hsid]; exact hnone
    have h3 : (add_meal_to_booking mrequest s).2 = s := by rw [add_meal_not_found mrequest s hmn]
    rw [h3]
    rw [cancel_not_found request.seat_id s hnone]

/-- Witness for C5: the round trip on seat 5 of the seeded state. -/
theorem claim_round_trip_witness :
    (cancel_booking amit_request.seat_id
      ((add_meal_to_booking jain_meal_request
        (book_seat amit_request initialBookings).2).2)).2 = initialBookings :=
  claim_round_trip initialBookings amit_request jain_meal_request "Nadiad" "Surat"
    (by decide) (by decide) rfl

/-- C6: add_meal fails with a 404 when the seat has no active booking, and otherwise
replaces only the meal_preference of the found booking, leaving every other field
and every other booking unchanged. -/
theorem claim_add_meal_spec (request : MealRequest) (s : List Booking) :
    (_is_seat_booked request.seat_id s = false →
      add_meal_to_booking request s =
        (.error ⟨404, "Booking not found for this seat"⟩, s)) ∧
    (∀ i, _find_booking_index request.seat_id s = some i →
      ∃ existing, s[i]? = some existing ∧ existing.seat_id = request.seat_id ∧
        ∃ updated, add_meal_to_booking request s = (.ok updated, s.set i updated) ∧
          updated.meal_preference = some (str_strip request.meal_preference) ∧
          updated.seat_id = existing.seat_id ∧
          updated.passenger_name = existing.passenger_name ∧
          updated.pickup_station = existing.pickup_station ∧
          updated.drop_station = existing.drop_station ∧
          ∀ j, j ≠ i → (s.set i updated)[j]? = s[j]?) := by
  constructor
  · intro h
    exact add_meal_not_found request s (find_none_of_not_booked request.seat_id s h)
  · intro i hi
    obtain ⟨existing, hex, hesid⟩ := find_booking_index_some request.seat_id s i hi
    refine ⟨existing, hex, hesid, _, add_meal_found request s i existing hi hex,
      rfl, rfl, rfl, rfl, rfl, ?_⟩
    intro j hj
    exact List.getElem?_set_ne (by omega)

/-- Witness for C6: adding a meal for never-booked seat 99 fails with a 404. -/
theorem claim_add_meal_spec_witness :
    add_meal_to_booking { seat_id := 99, meal_preference := "Vegan" } initialBookings =
      (.error ⟨404, "Booking not found for this seat"⟩, initialBookings) :=
  (claim_add_meal_spec { seat_id := 99, meal_preference := "Vegan" } initialBookings).1
    (by decide)

/-- C7: cancel_booking fails with a 404 when the seat has no active booking,
otherwise removes the found booking and returns the cancelled-status confirmation;
on the seeded state cancelling seat 2 names Riya Shah and unbooks seat 2. -/
theorem claim_cancel_booking_spec (seat_id : Nat) (s : List Booking) :
    (_is_seat_booked seat_id s = false →
      cancel_booking seat_id s = (.error ⟨404, "No active booking for this seat"⟩, s)) ∧
    (∀ i, _find_booking_index seat_id s = some i →
      ∃ cancelled, s[i]? = some cancelled ∧ cancelled.seat_id = seat_id ∧
        cancel_booking seat_id s =
          (.ok { status := "cancelled", seat_id := seat_id,
                 passenger_name := cancelled.passenger_name }, s.eraseIdx i)) ∧
    ((cancel_booking 2 initialBookings).1 =
        .ok { status := "cancelled", seat_id := 2, passenger_name := "Riya Shah" } ∧
      ∀ seat ∈ list_seats (cancel_booking 2 initialBookings).2,
        seat.seat_id = 2 → seat.is_booked = false) := by
  refine ⟨?_, ?_, by decide⟩
  · intro h
    exact cancel_not_found seat_id s (find_none_of_not_booked seat_id s h)
  · intro i hi
    obtain ⟨cancelled, hex, hcsid⟩ := find_booking_index_some seat_id s i hi
    exact ⟨cancelled, hex, hcsid, cancel_found seat_id s i cancelled hi hex⟩

/-- Witness for C7: cancelling seat 2 of the seeded state removes Riya Shah's booking. -/
theorem claim_cancel_booking_spec_witness :
    ∃ cancelled, initialBookings[0]? = some cancelled ∧ cancelled.seat_id = 2 ∧
      cancel_booking 2 initialBookings =
        (.ok { status := "cancelled", seat_id := 2,
               passenger_name := cancelled.passenger_name },
         initialBookings.eraseIdx 0) :=
  (claim_cancel_booking_spec 2 initialBookings).2.1 0 (by decide)

end SleeperBus
